import Mathlib

/-!
Verification of the Spotify OAuth/recommendation Flask app (`src/app.py`)
against its natural-language specification.

The embedding is shallow: every route handler and helper of `app.py` becomes a
Lean function over explicit inputs. Outbound HTTP traffic is modelled by
oracle parameters: a route receives the upstream responses (or a function from
request URL and Authorization header to a response) instead of performing I/O.
Python's dynamic values are modelled by a small `Json` type where the code
manipulates raw parsed JSON, and by typed records where the code's field
accesses fix a schema (the recommendation-assembler helpers). The embedding
assumes upstream responses are schema-conformant where the Python code would
otherwise raise `KeyError`/`IndexError` (e.g. every recommended track carries
at least one artist object); no claim below depends on malformed upstream data.
-/

namespace Spotify

/-- Parsed JSON values, as returned by `response.json()` in `app.py`. -/
inductive Json where
  | null
  | bool (b : Bool)
  | num (n : Int)
  | str (s : String)
  | arr (elems : List Json)
  | obj (fields : List (String × Json))

/-- Python truthiness of a JSON value (`if not x` in `app.py`): `None`, `False`,
`0`, `""`, `[]` and the empty object are falsy, everything else is truthy. -/
def Json.truthy : Json → Bool
  | .null => false
  | .bool b => b
  | .num n => n != 0
  | .str s => s != ""
  | .arr elems => !elems.isEmpty
  | .obj fields => !fields.isEmpty

/-- Python `dict.get(key)` on a JSON object: the value under `key`, or `None`
when the key is absent or the value is not an object. JSON objects have
distinct keys, so the first match is the value. -/
def Json.getField : Json → String → Option Json
  | .obj fields, key => fields.lookup key
  | _, _ => none

/-- Python truthiness of an optional JSON value (`session.get`/`api_request`
results are either `None` or a JSON value). -/
def pyTruthy : Option Json → Bool
  | none => false
  | some j => j.truthy

/-- Python `str()`/f-string rendering of a JSON value, used only to build
`Authorization` headers and URLs. Lists and objects are abstracted to fixed
markers: no claim depends on the exact rendered text of a composite value. -/
def pyStr : Json → String
  | .null => "None"
  | .bool true => "True"
  | .bool false => "False"
  | .num n => toString n
  | .str s => s
  | .arr _ => "[list]"
  | .obj _ => "[dict]"

/-- The outcome of one outbound `requests.get`/`requests.post`:
either the TCP/TLS layer fails (`requests` raises `ConnectionError`,
`Timeout`, ... — every exception that is not an `HTTPError`), or an HTTP
response with a status code, a parsed JSON body and a raw text body arrives. -/
inductive HttpOutcome where
  | networkError
  | response (status : Nat) (body : Json) (text : String)

/-- `api_request` (app.py lines 21-28). `response.raise_for_status()` raises
`HTTPError` exactly for status codes 400-599; that exception is caught, a
diagnostic is printed (a side effect outside this model) and `None` is
returned. Any other exception — in particular every network-level error from
`requests.get` — is not caught and propagates to the caller, modelled as
`Except.error`. On a non-raising status the parsed JSON body is returned. -/
def api_request (outcome : HttpOutcome) : Except Unit (Option Json) :=
  match outcome with
  | .networkError => .error ()
  | .response status body _ =>
    if 400 ≤ status ∧ status < 600 then .ok none else .ok (some body)

/-- The Flask `session` dict restricted to the two keys `app.py` ever writes.
The outer `Option` is key presence (`'access_token' in session`), the inner
value is what was stored there — which can itself be Python `None`, modelled
as `Option Json` because `callback` stores `token_info.get(...)`. -/
structure Session where
  access_token : Option (Option Json) := none
  refresh_token : Option (Option Json) := none

/-- A fresh browser session: neither token key present. -/
def Session.empty : Session := {}

/-- `session.get('access_token')`: `None` when the key is absent, the stored
value (possibly `None`) when present. -/
def Session.getAccessToken (s : Session) : Option Json :=
  s.access_token.join

/-- A response of the provider's token endpoint to the `requests.post` in
`callback`. -/
structure TokenResponse where
  status : Nat
  body : Json
  text : String

/-- What a route handler hands back to Flask in the callback route. -/
inductive HttpResponse where
  | errorText (msg : String)
  | redirectTo (route : String)

/-- `callback` (app.py lines 49-71). `code` is `request.args.get('code')`; it
flows only into the POST payload, whose response is the `resp` parameter. On a
non-200 status the handler returns an error string embedding the raw response
text and never touches the session. On 200 it stores
`token_info.get('access_token')` and `token_info.get('refresh_token')` under
the two session keys (possibly storing `None`) and redirects to `profile`. -/
def callback (code : Option String) (s : Session) (resp : TokenResponse) :
    Session × HttpResponse :=
  if resp.status ≠ 200 then
    (s, .errorText ("Error fetching access token: " ++ resp.text))
  else
    let token_info := resp.body
    ({ s with
        access_token := some (token_info.getField "access_token"),
        refresh_token := some (token_info.getField "refresh_token") },
     .redirectTo "profile")

/-- The `Authorization` header `'Bearer ' + access_token` built by every
authenticated route, for a token taken from the session (a JSON value). -/
def bearer (token : Json) : String := "Bearer " ++ pyStr token

def meUrl : String := "https://api.spotify.com/v1/me"

def topArtistsUrl : String := "https://api.spotify.com/v1/me/top/artists"

def topTracksUrl : String := "https://api.spotify.com/v1/me/top/tracks"

/-- What the `/profile` handler hands back to Flask: a redirect to `/login`,
a plain-text error, or the rendered `profile.html` with its three data
arguments. -/
inductive ProfileResponse where
  | redirectLogin
  | errorText (msg : String)
  | render (user_data top_artists top_tracks : Json)

/-- The three sequential `api_request` calls of the `/profile` handler
(app.py lines 85-99), given the Authorization header and an oracle mapping
(url, header) to the value `api_request` returned there. Besides the response
it records the list of URLs requested, in order. The `.getD .null` defaults
are unreachable: the guard `pyTruthy _ = true` forces the option to be `some`. -/
def fetchBundle (headers : String) (api : String → String → Option Json) :
    ProfileResponse × List String :=
  let user_data := api meUrl headers
  if pyTruthy user_data = false then
    (.errorText "Error fetching user profile.", [meUrl])
  else
    let top_artists_data := api topArtistsUrl headers
    if pyTruthy top_artists_data = false then
      (.errorText "Error fetching top artists.", [meUrl, topArtistsUrl])
    else
      let top_tracks_data := api topTracksUrl headers
      if pyTruthy top_tracks_data = false then
        (.errorText "Error fetching top tracks.", [meUrl, topArtistsUrl, topTracksUrl])
      else
        (.render (user_data.getD .null) (top_artists_data.getD .null)
           (top_tracks_data.getD .null),
         [meUrl, topArtistsUrl, topTracksUrl])

/-- `profile` (app.py lines 74-99): read `access_token` from the session,
redirect to `/login` when it is absent or falsy, otherwise fetch the
profile / top-artists / top-tracks bundle sequentially. -/
def profile (s : Session) (api : String → String → Option Json) :
    ProfileResponse × List String :=
  match s.getAccessToken with
  | none => (.redirectLogin, [])
  | some tok =>
    if tok.truthy = false then (.redirectLogin, [])
    else fetchBundle (bearer tok) api

/-- An artist object of the upstream API as the assembler reads it
(`similar_artist['name' | 'genres' | 'popularity']`, `artist['id']`). -/
structure ArtistSummary where
  id : String
  name : String
  genres : List String
  popularity : Int
deriving Repr, DecidableEq

/-- A track object of the upstream recommendations endpoint as
`get_hidden_gems` reads it: `track['name']`, the names of `track['artists']`
(the code takes `track['artists'][0]['name']`; the upstream schema guarantees
at least one artist), `track['popularity']`, `track['preview_url']` (nullable)
and `track['album']['name']`. -/
structure UpTrack where
  name : String
  artistNames : List String
  popularity : Int
  preview_url : Option String
  albumName : String
deriving Repr, DecidableEq

/-- The JSON body of a related-artists response: `.get('artists', [])` means
the `artists` key may be absent. An upstream `None` body or an empty (falsy)
object both take the `[]` branches of `get_similar_artists`, so the falsy-dict
case is folded into `artists := none` here. -/
structure RelatedArtistsData where
  artists : Option (List ArtistSummary)
deriving Repr, DecidableEq

/-- The JSON body of a recommendations response (`recommendations_data['tracks']`). -/
structure RecommendationsData where
  tracks : List UpTrack
deriving Repr, DecidableEq

def relatedArtistsUrl (artist_id : String) : String :=
  "https://api.spotify.com/v1/artists/" ++ artist_id ++ "/related-artists"

def recommendationsUrl (genre : String) : String :=
  "https://api.spotify.com/v1/recommendations?seed_genres=" ++ genre ++ "&limit=50"

/-- `get_similar_artists` (app.py lines 109-113): one related-artists call; on
a failed call (`api_request` returned `None`) or an absent `artists` key the
result is the empty list. The oracle maps (url, Authorization header) to the
`api_request` result. -/
def get_similar_artists (artist_id : String) (access_token : String)
    (api : String → String → Option RelatedArtistsData) : List ArtistSummary :=
  match api (relatedArtistsUrl artist_id) ("Bearer " ++ access_token) with
  | none => []
  | some d => d.artists.getD []

/-- An element of `get_hidden_gems`'s result: the five-field dict built in its
list comprehension. -/
structure HiddenGem where
  name : String
  artist : String
  popularity : Int
  preview_url : Option String
  album : String
deriving Repr, DecidableEq

/-- The dict `get_hidden_gems` builds per qualifying track:
`track['artists'][0]['name']` is the first artist name, `track['album']['name']`
the album name. -/
def mkHiddenGem (t : UpTrack) : HiddenGem :=
  { name := t.name
    artist := t.artistNames.headD ""
    popularity := t.popularity
    preview_url := t.preview_url
    album := t.albumName }

/-- `get_hidden_gems` (app.py lines 116-135): one recommendations call seeded
by `genre` with `limit=50`; on a failed call the empty list; otherwise the
tracks with popularity strictly below 50, in upstream order, each reshaped by
`mkHiddenGem`, truncated to the first `max_results` (default 5). -/
def get_hidden_gems (genre : String) (access_token : String)
    (api : String → String → Option RecommendationsData)
    (max_results : Nat := 5) : List HiddenGem :=
  match api (recommendationsUrl genre) ("Bearer " ++ access_token) with
  | none => []
  | some recommendations_data =>
    let tracks :=
      ((recommendations_data.tracks.filter (fun t => decide (t.popularity < 50))).map
        mkHiddenGem)
    tracks.take max_results

/-- An entry of `recommend_music`'s result: the `'type': 'Artist'` dicts built
from similar artists and the `'type': 'Track'` dicts built from hidden gems. -/
inductive Recommendation where
  | artistRec (name : String) (genres : List String) (popularity : Int)
  | trackRec (name : String) (artist : String) (album : String) (popularity : Int)
      (preview_url : Option String)
deriving Repr, DecidableEq

/-- The `'type'` discriminator field of a recommendation dict. -/
def Recommendation.tag : Recommendation → String
  | .artistRec .. => "Artist"
  | .trackRec .. => "Track"

/-- The `user_data` dict as `recommend_music` reads it:
`user_data.get('top_artists', [])` (default `[]` when absent, folded into a
plain list) and the optional `genres` key (`'genres' in user_data`). -/
structure UserData where
  top_artists : List ArtistSummary := []
  genres : Option (List String) := none
deriving Repr, DecidableEq

/-- `recommend_music` (app.py lines 138-166): per top artist every similar
artist becomes an `Artist`-tagged entry (no popularity filter); when the
`genres` key is present, per genre every hidden gem (default `max_results=5`)
becomes a `Track`-tagged entry; the combined list is shuffled
(`random.shuffle`, modelled by the `shuffle` parameter) and truncated to the
first 10 entries. -/
def recommend_music (user_data : UserData) (access_token : String)
    (relatedApi : String → String → Option RelatedArtistsData)
    (recsApi : String → String → Option RecommendationsData)
    (shuffle : List Recommendation → List Recommendation) : List Recommendation :=
  let top_artists := user_data.top_artists
  let step1 : List Recommendation :=
    (top_artists.map (fun artist =>
      (get_similar_artists artist.id access_token relatedApi).map
        (fun similar_artist =>
          Recommendation.artistRec similar_artist.name similar_artist.genres
            similar_artist.popularity))).flatten
  let step2 : List Recommendation :=
    match user_data.genres with
    | none => []
    | some genres =>
      (genres.map (fun genre =>
        (get_hidden_gems genre access_token recsApi).map
          (fun track =>
            Recommendation.trackRec track.name track.artist track.album
              track.popularity track.preview_url))).flatten
  let recommended_tracks := step1 ++ step2
  (shuffle recommended_tracks).take 10

/-- The `/v1/me` JSON body as the `/recommend` route uses it: `numKeys` is
`len()` of the profile dict (the route iterates `range(len(user_data))` after
adding the `top_artists` key), and `genres` is its optional `genres` key
(absent in the real upstream schema, kept general here). The profile dict is
assumed not to already contain a `top_artists` key, per the upstream schema. -/
structure UserProfile where
  numKeys : Nat
  genres : Option (List String) := none
deriving Repr, DecidableEq

/-- The `/v1/me/top/artists` JSON body as the `/recommend` route uses it
(`top_artists_data['items']`). It models a dict carrying at least the `items`
key, hence truthy. -/
structure TopArtistsData where
  items : List ArtistSummary
deriving Repr, DecidableEq

/-- Abstract stand-in for the Python f-string rendering of the list
`user_data['top_artists']` that the dead loop of the `/recommend` route
interpolates into the related-artists URL: any URL for which the upstream has
no resource. No claim depends on the exact text. -/
def pyStrArtistList (artists : List ArtistSummary) : String :=
  "[" ++ String.intercalate ", " (artists.map (fun a => a.name)) ++ "]"

/-- What the `/recommend` handler hands back to Flask. -/
inductive RecommendResponse where
  | redirectLogin
  | errorText (msg : String)
  | render (tracks : List Recommendation)
deriving Repr, DecidableEq

/-- `recommend` (app.py lines 169-198): redirect to `/login` when the session
token is absent or falsy; fetch `/v1/me` and top artists, short-circuiting
with a plain-text error when either is absent or falsy; attach
`top_artists_data['items']` to the user data; run the loop
`for i in range(len(user_data))` whose body calls `get_similar_artists` with
the whole `top_artists` list interpolated into the URL and whose accumulated
result is never read; render `recommend_music`'s output.
`len(user_data)` is `prof.numKeys + 1` after the `top_artists` key is added. -/
def recommend (s : Session)
    (meResp : Option UserProfile)
    (topArtistsResp : Option TopArtistsData)
    (relatedApi : String → String → Option RelatedArtistsData)
    (recsApi : String → String → Option RecommendationsData)
    (shuffle : List Recommendation → List Recommendation) : RecommendResponse :=
  match s.getAccessToken with
  | none => .redirectLogin
  | some tok =>
    if tok.truthy = false then .redirectLogin
    else
      match meResp with
      | none => .errorText "Error fetching user profile."
      | some prof =>
        if prof.numKeys = 0 then .errorText "Error fetching user profile."
        else
          match topArtistsResp with
          | none => .errorText "Error fetching top artists."
          | some top_artists_data =>
            let user_data : UserData :=
              { top_artists := top_artists_data.items, genres := prof.genres }
            let access_token := pyStr tok
            let similar_artists :=
              (List.range (prof.numKeys + 1)).map (fun _ =>
                get_similar_artists (pyStrArtistList top_artists_data.items)
                  access_token relatedApi)
            .render (recommend_music user_data access_token relatedApi recsApi shuffle)

/-- The `/recommend` handler with the dead similar-artists loop removed: the
spec-side variant the refinement claim C7 compares against. -/
def recommendNoLoop (s : Session)
    (meResp : Option UserProfile)
    (topArtistsResp : Option TopArtistsData)
    (relatedApi : String → String → Option RelatedArtistsData)
    (recsApi : String → String → Option RecommendationsData)
    (shuffle : List Recommendation → List Recommendation) : RecommendResponse :=
  match s.getAccessToken with
  | none => .redirectLogin
  | some tok =>
    if tok.truthy = false then .redirectLogin
    else
      match meResp with
      | none => .errorText "Error fetching user profile."
      | some prof =>
        if prof.numKeys = 0 then .errorText "Error fetching user profile."
        else
          match topArtistsResp with
          | none => .errorText "Error fetching top artists."
          | some top_artists_data =>
            let user_data : UserData :=
              { top_artists := top_artists_data.items, genres := prof.genres }
            let access_token := pyStr tok
            .render (recommend_music user_data access_token relatedApi recsApi shuffle)

/-! Fixtures for the scenario claims. -/

/-- The fixture upstream recommendations response of the spec's scenario:
ten tracks with popularities 10, 60, 20, 70, 30, 80, 40, 90, 49, 51. -/
def fixtureTracks : List UpTrack :=
  [⟨"t1", ["a1"], 10, none, "al1"⟩,
   ⟨"t2", ["a2"], 60, none, "al2"⟩,
   ⟨"t3", ["a3"], 20, none, "al3"⟩,
   ⟨"t4", ["a4"], 70, none, "al4"⟩,
   ⟨"t5", ["a5"], 30, none, "al5"⟩,
   ⟨"t6", ["a6"], 80, none, "al6"⟩,
   ⟨"t7", ["a7"], 40, none, "al7"⟩,
   ⟨"t8", ["a8"], 90, none, "al8"⟩,
   ⟨"t9", ["a9"], 49, none, "al9"⟩,
   ⟨"t10", ["a10"], 51, none, "al10"⟩]

/-- An upstream that answers every recommendations request with the fixture. -/
def fixtureRecsApi : String → String → Option RecommendationsData :=
  fun _ _ => some ⟨fixtureTracks⟩

/-! The claims. -/

/-- C1: for every genre, token and upstream recommendation response,
`get_hidden_gems` returns exactly the upstream tracks with popularity
strictly below 50, in the upstream's relative order (a sublist of the
reshaped upstream list), truncated to the first `max_results` (default 5);
it never returns a track with popularity ≥ 50, never more than `max_results`
tracks, and on the fixture with popularities
[10, 60, 20, 70, 30, 80, 40, 90, 49, 51] and `max_results = 5` it returns
exactly the tracks with popularities [10, 20, 30, 40, 49] in that order. -/
theorem get_hidden_gems_correct :
    (∀ genre access_token api max_results (d : RecommendationsData),
        api (recommendationsUrl genre) ("Bearer " ++ access_token) = some d →
        get_hidden_gems genre access_token api max_results =
          ((d.tracks.filter (fun t => decide (t.popularity < 50))).map mkHiddenGem).take
            max_results) ∧
    (∀ genre access_token api max_results (d : RecommendationsData),
        api (recommendationsUrl genre) ("Bearer " ++ access_token) = some d →
        List.Sublist (get_hidden_gems genre access_token api max_results)
          (d.tracks.map mkHiddenGem)) ∧
    (∀ genre access_token api max_results g,
        g ∈ get_hidden_gems genre access_token api max_results → g.popularity < 50) ∧
    (∀ genre access_token api max_results,
        (get_hidden_gems genre access_token api max_results).length ≤ max_results) ∧
    ((get_hidden_gems "indie" "token" fixtureRecsApi 5).map HiddenGem.popularity
        = [10, 20, 30, 40, 49] ∧
      get_hidden_gems "indie" "token" fixtureRecsApi 5 =
        [⟨"t1", "a1", 10, none, "al1"⟩, ⟨"t3", "a3", 20, none, "al3"⟩,
         ⟨"t5", "a5", 30, none, "al5"⟩, ⟨"t7", "a7", 40, none, "al7"⟩,
         ⟨"t9", "a9", 49, none, "al9"⟩]) := by
  refine ⟨?_, ?_, ?_, ?_, by decide, by decide⟩
  · intro genre access_token api max_results d h
    simp [get_hidden_gems, h]
  · intro genre access_token api max_results d h
    simp only [get_hidden_gems, h]
    exact (List.take_sublist _ _).trans
      (List.Sublist.map mkHiddenGem (List.filter_sublist _))
  · intro genre access_token api max_results g hg
    cases h : api (recommendationsUrl genre) ("Bearer " ++ access_token) with
    | none => rw [get_hidden_gems, h] at hg; simp at hg
    | some d =>
      rw [get_hidden_gems, h] at hg
      simp only [] at hg
      have hmem := List.take_subset _ _ hg
      obtain ⟨t, ht, rfl⟩ := List.mem_map.mp hmem
      have hp := List.of_mem_filter ht
      simpa [mkHiddenGem] using of_decide_eq_true hp
  · intro genre access_token api max_results
    cases h : api (recommendationsUrl genre) ("Bearer " ++ access_token) with
    | none => simp [get_hidden_gems, h]
    | some d =>
      simp only [get_hidden_gems, h]
      exact (List.length_take _ _).le.trans (min_le_left _ _)

/-- C2: for every callback invocation (any `code`, starting from a fresh
session), a 200 token-endpoint response stores both token fields in the
session and redirects to the profile route, while any non-200 response leaves
the session empty and returns an error message embedding the raw response
body. -/
theorem callback_token_exchange (code : Option String) (resp : TokenResponse) :
    (resp.status = 200 →
      (callback code Session.empty resp).1.access_token
          = some (resp.body.getField "access_token") ∧
        (callback code Session.empty resp).1.refresh_token
          = some (resp.body.getField "refresh_token") ∧
        (callback code Session.empty resp).2 = .redirectTo "profile") ∧
    (resp.status ≠ 200 →
      (callback code Session.empty resp).1 = Session.empty ∧
        (callback code Session.empty resp).2
          = .errorText ("Error fetching access token: " ++ resp.text)) := by
  constructor
  · intro h
    simp [callback, h]
  · intro h
    simp [callback, h]

/-- C3, counterexample: on a network-level error `api_request` does not return
an absent value — the exception propagates to the caller, because only
`requests.exceptions.HTTPError` is caught. -/
theorem api_request_network_error_raises :
    api_request HttpOutcome.networkError = Except.error () ∧
      api_request HttpOutcome.networkError ≠ Except.ok none :=
  ⟨rfl, fun h => nomatch h⟩

/-- C3, amended: `api_request` returns an absent value (after logging) exactly
for the statuses `raise_for_status` raises on (400-599), returns the parsed
body for every other status, and an exception escapes to the caller exactly on
a network-level error. -/
theorem api_request_amended :
    (∀ status body text, 400 ≤ status → status < 600 →
        api_request (HttpOutcome.response status body text) = Except.ok none) ∧
    (∀ status body text, ¬(400 ≤ status ∧ status < 600) →
        api_request (HttpOutcome.response status body text) = Except.ok (some body)) ∧
    (∀ outcome, api_request outcome = Except.error () ↔
        outcome = HttpOutcome.networkError) := by
  refine ⟨?_, ?_, ?_⟩
  · intro status body text h1 h2
    simp [api_request, h1, h2]
  · intro status body text h
    simp [api_request, h]
  · intro outcome
    cases outcome with
    | networkError => simp [api_request]
    | response status body text =>
      simp only [api_request]
      constructor
      · intro h
        split at h <;> exact nomatch h
      · intro h
        exact nomatch h

/-- Witness for the amended C3 at status 404: the failed call surfaces as an
absent value. -/
theorem api_request_amended_concrete :
    api_request (HttpOutcome.response 404 (Json.obj []) "Not Found") = Except.ok none :=
  api_request_amended.1 404 (Json.obj []) "Not Found" (by decide) (by decide)

/-- C9: when the related-artists call fails (`api_request` returned absent),
`get_similar_artists` returns the empty list rather than an error or an
absent value. -/
theorem get_similar_artists_absent_empty (artist_id : String) (access_token : String)
    (api : String → String → Option RelatedArtistsData)
    (h : api (relatedArtistsUrl artist_id) ("Bearer " ++ access_token) = none) :
    get_similar_artists artist_id access_token api = [] := by
  simp [get_similar_artists, h]

/-- Witness for C9 at a concrete artist id and token against an upstream whose
every call fails. -/
theorem get_similar_artists_absent_empty_concrete :
    get_similar_artists "4tZ" "tok" (fun _ _ => none) = [] :=
  get_similar_artists_absent_empty "4tZ" "tok" (fun _ _ => none) rfl

/-- C4: `recommend_music` returns at most 10 entries, whatever the user data,
token, upstream responses and shuffle. -/
theorem recommend_music_at_most_ten (user_data : UserData) (access_token : String)
    (relatedApi : String → String → Option RelatedArtistsData)
    (recsApi : String → String → Option RecommendationsData)
    (shuffle : List Recommendation → List Recommendation) :
    (recommend_music user_data access_token relatedApi recsApi shuffle).length ≤ 10 := by
  simp only [recommend_music]
  exact (List.length_take _ _).le.trans (min_le_left _ _)

/-- C5: a request to `/profile` or `/recommend` whose session holds no truthy
`access_token` (key absent, value `None`, or a falsy value) is answered by a
redirect to `/login`; `/profile` issues no upstream request (its call trace is
empty) and `/recommend`'s response is the redirect whatever the upstream
responses would have been. -/
theorem missing_token_redirects_to_login (s : Session)
    (h : pyTruthy s.getAccessToken = false) :
    (∀ api, profile s api = (.redirectLogin, [])) ∧
    (∀ meResp topArtistsResp relatedApi recsApi shuffle,
        recommend s meResp topArtistsResp relatedApi recsApi shuffle =
          .redirectLogin) := by
  constructor
  · intro api
    cases htok : s.getAccessToken with
    | none => simp [profile, htok]
    | some tok =>
      rw [htok] at h
      simp only [pyTruthy] at h
      simp [profile, htok, h]
  · intro meResp topArtistsResp relatedApi recsApi shuffle
    cases htok : s.getAccessToken with
    | none => simp [recommend, htok]
    | some tok =>
      rw [htok] at h
      simp only [pyTruthy] at h
      simp [recommend, htok, h]

/-- Witness for C5: a fresh session is redirected by `/profile` with no
upstream call recorded. -/
theorem missing_token_redirects_to_login_concrete :
    profile Session.empty (fun _ _ => some (Json.obj [("id", Json.str "u")])) =
      (.redirectLogin, []) :=
  (missing_token_redirects_to_login Session.empty rfl).1 _

/-- C6: with a truthy session token, `/profile` requests the profile,
top-artists and top-tracks endpoints sequentially; an absent result fails the
whole fetch with the plain-text error of the first failed stage (the call
trace stops there), and the profile view is rendered only when all three calls
succeeded — the rendered data is exactly the three responses. -/
theorem profile_all_or_nothing (s : Session) (tok : Json)
    (api : String → String → Option Json)
    (hs : s.getAccessToken = some tok) (ht : tok.truthy = true) :
    (api meUrl (bearer tok) = none →
        profile s api = (.errorText "Error fetching user profile.", [meUrl])) ∧
    (pyTruthy (api meUrl (bearer tok)) = true →
      api topArtistsUrl (bearer tok) = none →
        profile s api =
          (.errorText "Error fetching top artists.", [meUrl, topArtistsUrl])) ∧
    (pyTruthy (api meUrl (bearer tok)) = true →
      pyTruthy (api topArtistsUrl (bearer tok)) = true →
      api topTracksUrl (bearer tok) = none →
        profile s api =
          (.errorText "Error fetching top tracks.",
            [meUrl, topArtistsUrl, topTracksUrl])) ∧
    (∀ u a t, (profile s api).1 = .render u a t →
        api meUrl (bearer tok) = some u ∧ api topArtistsUrl (bearer tok) = some a ∧
          api topTracksUrl (bearer tok) = some t) := by
  have hp : profile s api = fetchBundle (bearer tok) api := by
    simp [profile, hs, ht]
  refine ⟨?_, ?_, ?_, ?_⟩
  · intro h1
    have h1f : pyTruthy (api meUrl (bearer tok)) = false := by rw [h1]; rfl
    rw [hp]
    simp [fetchBundle, h1f]
  · intro h1 h2
    have h2f : pyTruthy (api topArtistsUrl (bearer tok)) = false := by rw [h2]; rfl
    rw [hp]
    simp [fetchBundle, h1, h2f]
  · intro h1 h2 h3
    have h3f : pyTruthy (api topTracksUrl (bearer tok)) = false := by rw [h3]; rfl
    rw [hp]
    simp [fetchBundle, h1, h2, h3f]
  · intro u a t hr
    rw [hp] at hr
    simp only [fetchBundle] at hr
    split at hr
    · exact ProfileResponse.noConfusion hr
    · split at hr
      · exact ProfileResponse.noConfusion hr
      · split at hr
        · exact ProfileResponse.noConfusion hr
        · rename_i hc1 hc2 hc3
          simp only [Bool.not_eq_false] at hc1 hc2 hc3
          cases hmu : api meUrl (bearer tok) with
          | none => rw [hmu] at hc1; exact absurd hc1 (by simp [pyTruthy])
          | some ju =>
            cases hma : api topArtistsUrl (bearer tok) with
            | none => rw [hma] at hc2; exact absurd hc2 (by simp [pyTruthy])
            | some ja =>
              cases hmt : api topTracksUrl (bearer tok) with
              | none => rw [hmt] at hc3; exact absurd hc3 (by simp [pyTruthy])
              | some jt =>
                rw [hmu, hma, hmt] at hr
                simp only [Option.getD_some] at hr
                have hfst : ProfileResponse.render ju ja jt =
                    ProfileResponse.render u a t := hr
                injection hfst with e1 e2 e3
                subst e1
                subst e2
                subst e3
                exact ⟨rfl, rfl, rfl⟩

/-- Witness for C6: a session carrying the token `"tok"` against an upstream
whose every call fails is answered by the profile-stage error alone. -/
theorem profile_all_or_nothing_concrete :
    profile { access_token := some (some (Json.str "tok")) } (fun _ _ => none) =
      (.errorText "Error fetching user profile.", [meUrl]) :=
  (profile_all_or_nothing { access_token := some (some (Json.str "tok")) }
    (Json.str "tok") (fun _ _ => none) rfl (by decide)).1 rfl

/-- C7: the similar-artists loop of the `/recommend` route is dead code — the
route's response equals that of the same route with the loop removed, and
whenever the route renders, the rendered track list is exactly
`recommend_music`'s output on the assembled user data. -/
theorem recommend_loop_results_unused :
    (∀ s meResp topArtistsResp relatedApi recsApi shuffle,
        recommend s meResp topArtistsResp relatedApi recsApi shuffle =
          recommendNoLoop s meResp topArtistsResp relatedApi recsApi shuffle) ∧
    (∀ (s : Session) (tok : Json) (prof : UserProfile) (tad : TopArtistsData)
        relatedApi recsApi shuffle,
        s.getAccessToken = some tok → tok.truthy = true → prof.numKeys ≠ 0 →
        recommend s (some prof) (some tad) relatedApi recsApi shuffle =
          RecommendResponse.render
            (recommend_music { top_artists := tad.items, genres := prof.genres }
              (pyStr tok) relatedApi recsApi shuffle)) := by
  constructor
  · intro s meResp topArtistsResp relatedApi recsApi shuffle
    rfl
  · intro s tok prof tad relatedApi recsApi shuffle hs ht hn
    simp [recommend, hs, ht, hn]

/-- C8: when the `genres` key is absent from the user data, `recommend_music`
produces no `Track`-tagged entry: every entry of its (shuffled, truncated)
result is `Artist`-tagged. -/
theorem recommend_music_no_genres_only_artists (user_data : UserData)
    (access_token : String)
    (relatedApi : String → String → Option RelatedArtistsData)
    (recsApi : String → String → Option RecommendationsData)
    (shuffle : List Recommendation → List Recommendation)
    (r : Recommendation)
    (hg : user_data.genres = none)
    (hperm : ∀ l, List.Perm (shuffle l) l)
    (hr : r ∈ recommend_music user_data access_token relatedApi recsApi shuffle) :
    r.tag = "Artist" := by
  simp only [recommend_music, hg, List.append_nil] at hr
  have h1 := List.take_subset _ _ hr
  have h2 := (hperm _).mem_iff.mp h1
  obtain ⟨sub, hsub, hrsub⟩ := List.mem_flatten.mp h2
  obtain ⟨artist, _, rfl⟩ := List.mem_map.mp hsub
  obtain ⟨sa, _, rfl⟩ := List.mem_map.mp hrsub
  rfl

/-- Witness for C8: one top artist, one similar artist, identity shuffle; the
single resulting entry is `Artist`-tagged. -/
theorem recommend_music_no_genres_only_artists_concrete :
    Recommendation.tag (.artistRec "related" ["indie rock"] 37) = "Artist" :=
  recommend_music_no_genres_only_artists
    { top_artists := [⟨"artist1", "A1", ["indie"], 55⟩] } "tok"
    (fun _ _ => some ⟨some [⟨"rid", "related", ["indie rock"], 37⟩]⟩)
    (fun _ _ => none) (fun l => l) (.artistRec "related" ["indie rock"] 37) rfl
    (fun l => List.Perm.refl l) (by decide)

/-- C10: a 200 token-endpoint response whose body lacks the `access_token`
field makes `callback` store `None` under the session key (present but null),
likewise for a missing `refresh_token`, and still redirect to `/profile`;
a subsequent `/profile` or `/recommend` request on that session treats the
null token as missing and redirects to `/login`. -/
theorem callback_null_token_fields (code : Option String) (body : Json) (text : String)
    (ha : body.getField "access_token" = none) :
    (callback code Session.empty ⟨200, body, text⟩).1.access_token = some none ∧
    (body.getField "refresh_token" = none →
      (callback code Session.empty ⟨200, body, text⟩).1.refresh_token = some none) ∧
    (callback code Session.empty ⟨200, body, text⟩).2 = .redirectTo "profile" ∧
    (∀ api, profile (callback code Session.empty ⟨200, body, text⟩).1 api =
        (.redirectLogin, [])) ∧
    (∀ meResp topArtistsResp relatedApi recsApi shuffle,
        recommend (callback code Session.empty ⟨200, body, text⟩).1 meResp
          topArtistsResp relatedApi recsApi shuffle = .redirectLogin) := by
  refine ⟨?_, ?_, ?_, ?_, ?_⟩
  · simp [callback, ha]
  · intro hrf
    simp [callback, hrf]
  · simp [callback]
  · intro api
    simp [profile, callback, Session.getAccessToken, ha]
  · intro meResp topArtistsResp relatedApi recsApi shuffle
    simp [recommend, callback, Session.getAccessToken, ha]

/-- Witness for C10 at the empty JSON body: the callback still redirects to
the profile route. -/
theorem callback_null_token_fields_concrete :
    (callback none Session.empty ⟨200, Json.obj [], "ok"⟩).2 =
      HttpResponse.redirectTo "profile" :=
  (callback_null_token_fields none (Json.obj []) "ok" rfl).2.2.1

end Spotify
